import Mathlib

/-!
# jerasure `galois.c`: the Galois-field registry and its dispatchers

A shallow embedding of `src/galois.c`.  The registry object `gf2_t`, the heap of
`gf_t` objects, the byte memory the region operations work on and a chronological
log of every external effect (allocation, release, backend call, message on
stderr) are carried in an explicit `State`.  GF-Complete (`gf_init_easy`,
`gf_init_hard`, `gf_scratch_size`, `gf_free`) and the allocator are external and
enter through `Env`.
-/

namespace Galois

/-! ## Data model -/

/-- Addresses.  `NULL` is address 0. -/
abbrev Ptr := Nat

/-- The null pointer. -/
def NULL : Ptr := 0

/-- Byte-addressed memory holding the region buffers: address to byte (0..255). -/
abbrev Memory := Nat → Nat

/-- The `gf_t` of GF-Complete, as far as `galois.c` looks into it: the five `.w32`
function pointers.  `none` is a NULL function pointer.  Each function receives the
`gf_t *` it is called with as its first argument. -/
structure gf_t where
  multiply : Option (Ptr → Nat → Nat → Nat)
  divide : Option (Ptr → Nat → Nat → Nat)
  inverse : Option (Ptr → Nat → Nat)
  multiply_region : Option (Ptr → Ptr → Ptr → Nat → Int → Int → Memory → Memory)
  extract_word : Option (Ptr → Ptr → Int → Int → Nat)

/-- The registry object `gf2_t` (declared in `galois.h`): the generic handle `gf`,
the per-width slots `gfp_array` and the per-width flags `gfp_is_composite`.  The
arrays are indexed by the C `int` the code indexes them with.  In C each array has
`MAX_GF_INSTANCES` = 64 entries: only the indices 0..63 are slots, and what is
stated about a width from 64 on, or below 0, does not describe the program. -/
structure gf2_t where
  gf : Ptr
  gfp_array : Int → Ptr
  gfp_is_composite : Int → Int

/-- The messages `galois.c` prints on stderr, each with the width it reports. -/
inductive Msg
  | cannot_init_default
  | cannot_allocate
  | cannot_get_scratch_size_base
  | cannot_get_scratch_memory_base
  | cannot_init_composite
  | cannot_get_scratch_size_composite
  | cannot_get_scratch_memory_composite
  | cannot_init_default_composite
  | cannot_support
  | overriding_with_invalid
  | not_implemented
  deriving DecidableEq, Repr

/-- External effects, logged in the order they happen.  A backend call through a
function pointer records the object the pointer was read from (`callee`) and the
`gf_t *` passed as first argument (`gf`). -/
inductive Event
  | malloc (p : Ptr)
  | free (p : Ptr)
  | gf_scratch_size (w mult_type region_type divide_type arg1 arg2 : Int)
  | gf_init_easy (gf : Ptr) (w : Int)
  | gf_init_hard (gf : Ptr) (w mult_type region_type divide_type : Int) (prim_poly : Nat)
      (arg1 arg2 : Int) (base_gf scratch : Ptr)
  | gf_free (gf : Ptr) (recursive : Int)
  | multiply (callee gf : Ptr) (a b : Nat)
  | divide (callee gf : Ptr) (a b : Nat)
  | multiply_region (callee gf src dest : Ptr) (val : Nat) (bytes add : Int)
  | stderr (m : Msg) (w : Int)
  deriving DecidableEq, Repr

/-- What `galois.c` calls but does not define: the allocator and GF-Complete.
`malloc` answers from the history of effects (0 is failure).  `gf_init_easy` and
`gf_init_hard` give the initialised object, or `none` when they return 0.
`fresh` is the content of a newly allocated, not yet written `gf2_t`. -/
structure Env where
  malloc : List Event → Ptr
  gf_scratch_size : Int → Int → Int → Int → Int → Int → Int
  gf_init_easy : Ptr → Int → Option gf_t
  gf_init_hard : Ptr → Int → Int → Int → Int → Nat → Int → Int → Ptr → Ptr → Option gf_t
  gf_free : Ptr → Int → Int
  fresh : gf2_t

/-- The program state: the registry `*g` at address `g`, the `gf_t` objects in
memory, the byte memory of the region buffers, and the log of effects. -/
structure State where
  g : Ptr
  reg : gf2_t
  objs : Ptr → Option gf_t
  mem : Memory
  log : List Event

/-- How a call ends: it returns `val` in state `s`, `assert(0)` aborts the process
in state `s`, or the behaviour is undefined (a null or wild pointer is used). -/
inductive Outcome (α : Type)
  | ok (val : α) (s : State)
  | fatal (s : State)
  | undefined

/-- Sequencing of calls: a fatal failure or undefined behaviour ends the run. -/
def Outcome.bind {α β : Type} (o : Outcome α) (f : α → State → Outcome β) : Outcome β :=
  match o with
  | Outcome.ok a s => f a s
  | Outcome.fatal s => Outcome.fatal s
  | Outcome.undefined => Outcome.undefined

/-- The value a call returned, if it returned. -/
def Outcome.val? {α : Type} : Outcome α → Option α
  | Outcome.ok a _ => some a
  | _ => none

/-- The state in which a call ended (returned or aborted). -/
def Outcome.state? {α : Type} : Outcome α → Option State
  | Outcome.ok _ s => some s
  | Outcome.fatal s => some s
  | Outcome.undefined => none

/-- Whether the call aborted the process. -/
def Outcome.isFatal {α : Type} : Outcome α → Bool
  | Outcome.fatal _ => true
  | _ => false

/-- `ENOMEM` of `errno.h`. -/
def ENOMEM : Int := 12

/-- `EINVAL` of `errno.h`. -/
def EINVAL : Int := 22

/-- `GF_MULT_COMPOSITE` of `gf_complete.h`. -/
def GF_MULT_COMPOSITE : Int := 12

/-- `MAX_GF_INSTANCES` of `galois.c`. -/
def MAX_GF_INSTANCES : Nat := 64

/-- Conversion of an `int` argument to the `uint32_t` parameter of a backend function. -/
def toU32 (x : Int) : Nat := (x % 4294967296).toNat

/-- Conversion of the `uint32_t` a backend function returns to the `int` result. -/
def toI32 (n : Nat) : Int :=
  if n % 4294967296 < 2147483648 then ((n % 4294967296 : Nat) : Int)
  else ((n % 4294967296 : Nat) : Int) - 4294967296

/-- Assignment `a[w] = p` to an `int`-indexed array. -/
def setIdx {α : Type} (a : Int → α) (w : Int) (p : α) : Int → α :=
  fun i => if i = w then p else a i

/-- Assignment `*p = v` to a cell of a pointer-indexed store. -/
def setAt {α : Type} (a : Nat → α) (p : Nat) (v : α) : Nat → α :=
  fun i => if i = p then v else a i

/-- Appends an effect to the log. -/
def State.emit (s : State) (e : Event) : State :=
  { s with log := s.log ++ [e] }

/-- Assignment `g->gfp_array[w] = p`. -/
def State.setSlot (s : State) (w : Int) (p : Ptr) : State :=
  { s with reg := { s.reg with gfp_array := setIdx s.reg.gfp_array w p } }

/-- The `gf_t` a pointer points to; `none` for NULL and for a pointer to no object. -/
def State.deref (s : State) (p : Ptr) : Option gf_t :=
  if p = NULL then none else s.objs p

/-! ## The functions of `galois.c` -/

/-- The standard `free`: nothing for NULL, otherwise the object is released. -/
def c_free (s : State) (p : Ptr) : State :=
  if p = NULL then s else { s.emit (Event.free p) with objs := setAt s.objs p none }

/-- `galois_get_field_ptr`, lines 57-64. -/
def galois_get_field_ptr (s : State) (w : Int) : Ptr :=
  if s.reg.gfp_array w ≠ NULL then s.reg.gfp_array w else NULL

/-- `galois_init_default_field`, lines 190-200: returns the status and the state. -/
def galois_init_default_field (env : Env) (s : State) (w : Int) : Int × State :=
  if s.reg.gfp_array w = NULL then
    let p := env.malloc s.log
    let s1 := (s.emit (Event.malloc p)).setSlot w p
    if p = NULL then (ENOMEM, s1)
    else
      match env.gf_init_easy p w with
      | none => (EINVAL, s1.emit (Event.gf_init_easy p w))
      | some o => (0, { s1.emit (Event.gf_init_easy p w) with objs := setAt s1.objs p (some o) })
  else (0, s)

/-- `galois_uninit_field`, lines 202-212. -/
def galois_uninit_field (env : Env) (s : State) (w : Int) : Outcome Int :=
  if s.reg.gfp_array w ≠ NULL then
    let p := s.reg.gfp_array w
    let recursive : Int := 1
    let ret := env.gf_free p recursive
    let s1 := c_free (s.emit (Event.gf_free p recursive)) p
    Outcome.ok ret (s1.setSlot w NULL)
  else Outcome.ok 0 s

/-- `galois_init`, lines 214-231. -/
def galois_init (env : Env) (s : State) (w : Int) : Outcome Unit :=
  if w ≤ 0 ∨ w > 32 then Outcome.fatal (s.emit (Event.stderr Msg.cannot_init_default w))
  else
    let r := galois_init_default_field env s w
    if r.1 = ENOMEM then Outcome.fatal (r.2.emit (Event.stderr Msg.cannot_allocate w))
    else if r.1 = EINVAL then Outcome.fatal (r.2.emit (Event.stderr Msg.cannot_init_default w))
    else Outcome.ok () r.2

/-- The guard `if (g->gfp_array[w] == NULL) galois_init(g, w);` that opens every
dispatcher. -/
def ensure_default (env : Env) (s : State) (w : Int) : Outcome Unit :=
  if s.reg.gfp_array w = NULL then galois_init env s w else Outcome.ok () s

/-- `is_valid_gf`, lines 234-261; `none` when `gf` points to no object. -/
def is_valid_gf (s : State) (gf : Ptr) (_w : Int) : Option Int :=
  if gf = NULL then some 0
  else
    match s.objs gf with
    | none => none
    | some o =>
      if o.multiply.isNone then some 0
      else if o.multiply_region.isNone then some 0
      else if o.divide.isNone then some 0
      else if o.inverse.isNone then some 0
      else if o.extract_word.isNone then some 0
      else some 1

/-- `galois_change_technique`, lines 263-280. -/
def galois_change_technique (_env : Env) (s : State) (gf : Ptr) (w : Int) : Outcome Unit :=
  if w ≤ 0 ∨ w > 32 then Outcome.fatal (s.emit (Event.stderr Msg.cannot_support w))
  else
    match is_valid_gf s gf w with
    | none => Outcome.undefined
    | some v =>
      if v = 0 then Outcome.fatal (s.emit (Event.stderr Msg.overriding_with_invalid w))
      else
        let s1 :=
          if s.reg.gfp_array w ≠ NULL then
            s.emit (Event.gf_free (s.reg.gfp_array w) (s.reg.gfp_is_composite w))
          else s
        Outcome.ok () (s1.setSlot w s.g)

/-- The call `g->gfp_array[w]->multiply.w32(g->gfp_array[w], x, y)`. -/
def call_multiply (s : State) (w x y : Int) : Outcome Int :=
  let p := s.reg.gfp_array w
  match s.deref p with
  | none => Outcome.undefined
  | some o =>
    match o.multiply with
    | none => Outcome.undefined
    | some f =>
      Outcome.ok (toI32 (f p (toU32 x) (toU32 y))) (s.emit (Event.multiply p p (toU32 x) (toU32 y)))

/-- The call `g->gfp_array[w]->divide.w32(g->gfp_array[w], x, y)`. -/
def call_divide (s : State) (w x y : Int) : Outcome Int :=
  let p := s.reg.gfp_array w
  match s.deref p with
  | none => Outcome.undefined
  | some o =>
    match o.divide with
    | none => Outcome.undefined
    | some f =>
      Outcome.ok (toI32 (f p (toU32 x) (toU32 y))) (s.emit (Event.divide p p (toU32 x) (toU32 y)))

/-- `galois_single_multiply`, lines 282-296. -/
def galois_single_multiply (env : Env) (s : State) (x y w : Int) : Outcome Int :=
  if x = 0 ∨ y = 0 then Outcome.ok 0 s
  else
    (ensure_default env s w).bind fun _ s1 =>
      if w ≤ 32 then call_multiply s1 w x y
      else Outcome.ok 0 (s1.emit (Event.stderr Msg.not_implemented w))

/-- `galois_single_divide`, lines 298-313. -/
def galois_single_divide (env : Env) (s : State) (x y w : Int) : Outcome Int :=
  if x = 0 then Outcome.ok 0 s
  else if y = 0 then Outcome.ok (-1) s
  else
    (ensure_default env s w).bind fun _ s1 =>
      if w ≤ 32 then call_divide s1 w x y
      else Outcome.ok 0 (s1.emit (Event.stderr Msg.not_implemented w))

/-- `galois_inverse`, lines 393-397. -/
def galois_inverse (env : Env) (s : State) (y w : Int) : Outcome Int :=
  if y = 0 then Outcome.ok (-1) s
  else galois_single_divide env s 1 y w

/-- The standard `memset(ptr, c, n)` on a `gf2_t` of `size` bytes: nothing is written
for `n = 0`, the whole object is zeroed for `c = 0` and `n = size`; any other
call is outside what this model describes (`none`). -/
def memset_gf2 (r : gf2_t) (c n size : Nat) : Option gf2_t :=
  if n = 0 then some r
  else if c = 0 ∧ n = size then
    some { gf := NULL, gfp_array := fun _ => NULL, gfp_is_composite := fun _ => 0 }
  else none

/-- `galois_init_empty`, lines 66-71, with `sizeof_gf2_t = sizeof(gf2_t)`: the new
registry's address and content.  The call is `memset(ptr, sizeof(gf2_t), 0)`. -/
def galois_init_empty (env : Env) (s : State) (sizeof_gf2_t : Nat) : Outcome (Ptr × gf2_t) :=
  let ptr := env.malloc s.log
  match memset_gf2 env.fresh sizeof_gf2_t 0 sizeof_gf2_t with
  | none => Outcome.undefined
  | some r => Outcome.ok (ptr, r) (s.emit (Event.malloc ptr))

/-- Whether `p` is released at the end of `log`: among the allocations and releases
of `p`, the last one is a release. -/
def is_released (log : List Event) (p : Ptr) : Bool :=
  log.foldl
    (fun b e => if e = Event.free p then true else if e = Event.malloc p then false else b) false

/-- The standard `free` where a pointer can come up more than once: nothing for NULL,
undefined (`none`) for a pointer that is already released, otherwise the object is
released. -/
def free_once (s : State) (p : Ptr) : Option State :=
  if p = NULL then some s
  else if is_released s.log p then none
  else some (c_free s p)

/-- The loop of `galois_destroy`, lines 77-78, over the indices `l`:
`free(galois_get_field_ptr(g, i))`. -/
def destroy_slots (s : State) : List Nat → Option State
  | [] => some s
  | i :: t =>
    match free_once s (galois_get_field_ptr s (Int.ofNat i)) with
    | none => none
    | some s1 => destroy_slots s1 t

/-- `galois_destroy`, lines 73-81, for the registry of the state or NULL.  Freeing a
pointer a second time is undefined behaviour. -/
def galois_destroy (s : State) (g : Ptr) : Outcome Unit :=
  if g ≠ NULL then
    if g = s.g then
      match free_once s s.reg.gf with
      | none => Outcome.undefined
      | some s1 =>
        match destroy_slots s1 (List.range MAX_GF_INSTANCES) with
        | none => Outcome.undefined
        | some s2 =>
          match free_once s2 g with
          | none => Outcome.undefined
          | some s3 => Outcome.ok () s3
    else Outcome.undefined
  else Outcome.ok () s

/-- The call `gf_init_hard(gf, w, ..., base_gf, scratch_memory)`: the state after
it, or `none` when it returns 0. -/
def call_gf_init_hard (env : Env) (s : State) (gf : Ptr) (w mult_type region_type divide_type : Int)
    (prim_poly : Nat) (arg1 arg2 : Int) (base_gf scratch : Ptr) : Option State :=
  let s1 := s.emit
    (Event.gf_init_hard gf w mult_type region_type divide_type prim_poly arg1 arg2 base_gf scratch)
  match env.gf_init_hard gf w mult_type region_type divide_type prim_poly arg1 arg2 base_gf scratch with
  | none => none
  | some o => some { s1 with objs := setAt s1.objs gf (some o) }

/-- `galois_init_field`, lines 83-136: the new registry's address and content. -/
def galois_init_field (env : Env) (s : State) (w mult_type region_type divide_type : Int)
    (prim_poly : Nat) (arg1 arg2 : Int) : Outcome (Ptr × gf2_t) :=
  if w ≤ 0 ∨ w > 32 then Outcome.fatal (s.emit (Event.stderr Msg.cannot_init_default w))
  else
    let gf2p := env.malloc s.log
    let s1 := s.emit (Event.malloc gf2p)
    if gf2p = NULL then Outcome.undefined
    else
      let gfp := env.malloc s1.log
      let s2 := s1.emit (Event.malloc gfp)
      let r : gf2_t := { env.fresh with gf := gfp }
      if gf2p = NULL ∨ r.gf ≠ NULL then
        Outcome.fatal (s2.emit (Event.stderr Msg.cannot_allocate w))
      else
        let scratch_size := env.gf_scratch_size w mult_type region_type divide_type arg1 arg2
        let s3 := s2.emit (Event.gf_scratch_size w mult_type region_type divide_type arg1 arg2)
        if scratch_size = 0 then
          Outcome.fatal (s3.emit (Event.stderr Msg.cannot_get_scratch_size_base w))
        else
          let scratch_memory := env.malloc s3.log
          let s4 := s3.emit (Event.malloc scratch_memory)
          if scratch_memory = NULL then
            Outcome.fatal (s4.emit (Event.stderr Msg.cannot_get_scratch_memory_base w))
          else
            match call_gf_init_hard env s4 r.gf w mult_type region_type divide_type prim_poly
                arg1 arg2 NULL scratch_memory with
            | none =>
              Outcome.fatal ((s4.emit (Event.gf_init_hard r.gf w mult_type region_type divide_type
                prim_poly arg1 arg2 NULL scratch_memory)).emit
                (Event.stderr Msg.cannot_init_default w))
            | some s5 =>
              Outcome.ok (gf2p, { r with gfp_is_composite := setIdx r.gfp_is_composite w 0 }) s5

/-- `galois_init_composite_field`, lines 138-188: the new registry's address and
content. -/
def galois_init_composite_field (env : Env) (s : State) (w region_type divide_type degree : Int)
    (base_gf : Ptr) : Outcome (Ptr × gf2_t) :=
  if w ≤ 0 ∨ w > 32 then Outcome.fatal (s.emit (Event.stderr Msg.cannot_init_composite w))
  else
    let gf2p := env.malloc s.log
    let s1 := s.emit (Event.malloc gf2p)
    if gf2p = NULL then Outcome.undefined
    else
      let gfp := env.malloc s1.log
      let s2 := s1.emit (Event.malloc gfp)
      let r : gf2_t := { env.fresh with gf := gfp }
      if gf2p = NULL ∨ r.gf ≠ NULL then
        Outcome.fatal (s2.emit (Event.stderr Msg.cannot_allocate w))
      else
        let scratch_size := env.gf_scratch_size w GF_MULT_COMPOSITE region_type divide_type degree 0
        let s3 := s2.emit (Event.gf_scratch_size w GF_MULT_COMPOSITE region_type divide_type degree 0)
        if scratch_size = 0 then
          Outcome.fatal (s3.emit (Event.stderr Msg.cannot_get_scratch_size_composite w))
        else
          let scratch_memory := env.malloc s3.log
          let s4 := s3.emit (Event.malloc scratch_memory)
          if scratch_memory = NULL then
            Outcome.fatal (s4.emit (Event.stderr Msg.cannot_get_scratch_memory_composite w))
          else
            match call_gf_init_hard env s4 r.gf w GF_MULT_COMPOSITE region_type divide_type 0
                degree 0 base_gf scratch_memory with
            | none =>
              Outcome.fatal ((s4.emit (Event.gf_init_hard r.gf w GF_MULT_COMPOSITE region_type
                divide_type 0 degree 0 base_gf scratch_memory)).emit
                (Event.stderr Msg.cannot_init_default_composite w))
            | some s5 =>
              Outcome.ok (gf2p, { r with gfp_is_composite := setIdx r.gfp_is_composite w 1 }) s5

/-- The call `callee->multiply_region.w32(gf, src, dest, val, bytes, add)`. -/
def call_multiply_region (s : State) (callee gf src dest : Ptr) (val bytes add : Int) :
    Outcome Unit :=
  match s.deref callee with
  | none => Outcome.undefined
  | some o =>
    match o.multiply_region with
    | none => Outcome.undefined
    | some f =>
      Outcome.ok ()
        { s.emit (Event.multiply_region callee gf src dest (toU32 val) bytes add) with
          mem := f gf src dest (toU32 val) bytes add s.mem }

/-- `galois_w08_region_multiply`, lines 315-326. -/
def galois_w08_region_multiply (env : Env) (s : State) (region : Ptr) (multby nbytes : Int)
    (r2 : Ptr) (add : Int) : Outcome Unit :=
  (ensure_default env s 8).bind fun _ s1 =>
    call_multiply_region s1 (s1.reg.gfp_array 8) (s1.reg.gfp_array 8) region r2 multby nbytes add

/-- `galois_w16_region_multiply`, lines 328-339. -/
def galois_w16_region_multiply (env : Env) (s : State) (region : Ptr) (multby nbytes : Int)
    (r2 : Ptr) (add : Int) : Outcome Unit :=
  (ensure_default env s 16).bind fun _ s1 =>
    call_multiply_region s1 (s1.reg.gfp_array 16) (s1.reg.gfp_array 16) region r2 multby nbytes add

/-- `galois_w32_region_multiply`, lines 342-353. -/
def galois_w32_region_multiply (env : Env) (s : State) (region : Ptr) (multby nbytes : Int)
    (r2 : Ptr) (add : Int) : Outcome Unit :=
  (ensure_default env s 32).bind fun _ s1 =>
    call_multiply_region s1 (s1.reg.gfp_array 32) (s1.reg.gfp_array 32) region r2 multby nbytes add

/-- `galois_w8_region_xor`, lines 355-361. -/
def galois_w8_region_xor (env : Env) (s : State) (src dest : Ptr) (nbytes : Int) : Outcome Unit :=
  (ensure_default env s 8).bind fun _ s1 =>
    call_multiply_region s1 (s1.reg.gfp_array 8) (s1.reg.gfp_array 32) src dest 1 nbytes 1

/-- `galois_w16_region_xor`, lines 363-369. -/
def galois_w16_region_xor (env : Env) (s : State) (src dest : Ptr) (nbytes : Int) : Outcome Unit :=
  (ensure_default env s 16).bind fun _ s1 =>
    call_multiply_region s1 (s1.reg.gfp_array 16) (s1.reg.gfp_array 16) src dest 1 nbytes 1

/-- `galois_w32_region_xor`, lines 371-377. -/
def galois_w32_region_xor (env : Env) (s : State) (src dest : Ptr) (nbytes : Int) : Outcome Unit :=
  (ensure_default env s 32).bind fun _ s1 =>
    call_multiply_region s1 (s1.reg.gfp_array 32) (s1.reg.gfp_array 32) src dest 1 nbytes 1

/-- The loop of `galois_region_xor`, lines 385-389, run for `n` iterations:
`*dest ^= *src; dest++; src++`. -/
def xor_loop (m : Memory) (src dest : Ptr) : Nat → Memory
  | 0 => m
  | n + 1 => xor_loop (setAt m dest ((m dest ^^^ m src) % 256)) (src + 1) (dest + 1) n

/-- `galois_region_xor`, lines 379-391. -/
def galois_region_xor (env : Env) (s : State) (src dest : Ptr) (nbytes : Int) : Outcome Unit :=
  if nbytes ≥ 16 then galois_w32_region_xor env s src dest nbytes
  else Outcome.ok () { s with mem := xor_loop s.mem src dest nbytes.toNat }

/-! ## Laws and sample data used to state and instantiate the theorems -/

/-- The laws of GF(2^w) on the elements `0 .. 2^w - 1` that the round trip rests on:
multiplication commutes, zero absorbs, and division undoes multiplication and
stays in the field. -/
structure GFArith (w : Nat) (mul dv : Nat → Nat → Nat) : Prop where
  mul_comm : ∀ a, a < 2 ^ w → ∀ b, b < 2 ^ w → mul a b = mul b a
  zero_mul : ∀ b, b < 2 ^ w → mul 0 b = 0
  div_lt : ∀ a, a < 2 ^ w → ∀ b, b < 2 ^ w → b ≠ 0 → dv a b < 2 ^ w
  div_mul : ∀ a, a < 2 ^ w → ∀ b, b < 2 ^ w → b ≠ 0 → mul (dv a b) b = a

/-- The instance that serves width `w` from state `s`: the object in the populated
slot, or the one default construction is about to put there. -/
def served (env : Env) (s : State) (w : Int) : Option (Ptr × gf_t) :=
  if s.reg.gfp_array w ≠ NULL then
    (s.objs (s.reg.gfp_array w)).map fun o => (s.reg.gfp_array w, o)
  else if env.malloc s.log = NULL then none
  else (env.gf_init_easy (env.malloc s.log) w).map fun o => (env.malloc s.log, o)

/-- The state default construction leaves when it succeeds with object `o`. -/
def constructed (env : Env) (s : State) (w : Int) (o : gf_t) : State :=
  { ((s.emit (Event.malloc (env.malloc s.log))).setSlot w (env.malloc s.log)).emit
      (Event.gf_init_easy (env.malloc s.log) w) with
    objs := setAt s.objs (env.malloc s.log) (some o) }

/-- Whether the byte ranges `[src, src+n)` and `[dest, dest+n)` do not overlap. -/
def disjoint_buffers (src dest n : Nat) : Prop := src + n ≤ dest ∨ dest + n ≤ src

/-- What a byte-by-byte XOR of `n` bytes of `src` into `dest` leaves in memory. -/
def bytewise_xor (m : Memory) (src dest n : Nat) : Memory :=
  fun a => if dest ≤ a ∧ a < dest + n then (m a ^^^ m (src + (a - dest))) % 256 else m a

/-- Sample backend: shift-and-add product modulo `poly` in GF(2^w), `k` rounds. -/
def sample_mul_loop (w poly : Nat) : Nat → Nat → Nat → Nat → Nat
  | 0, _, _, r => r
  | k + 1, a, b, r =>
    sample_mul_loop w poly k (if 2 * a ≥ 2 ^ w then (2 * a) ^^^ poly else 2 * a) (b / 2)
      (if b % 2 = 1 then r ^^^ a else r)

/-- Sample backend: product in GF(2^w). -/
def sample_mul (w poly a b : Nat) : Nat := sample_mul_loop w poly w a b 0

/-- Sample backend: quotient in GF(2^w), found by search. -/
def sample_div (w poly a b : Nat) : Nat :=
  ((List.range (2 ^ w)).find? fun z => sample_mul w poly z b = a).getD 0

/-- Sample backend: region multiply for the multipliers 0 and 1. -/
def sample_region (_gf src dest : Ptr) (val : Nat) (bytes add : Int) (m : Memory) : Memory :=
  if val = 1 ∧ add ≠ 0 then bytewise_xor m src dest bytes.toNat
  else fun a =>
    if dest ≤ a ∧ a < dest + bytes.toNat then (if val = 1 then m (src + (a - dest)) else 0)
    else m a

/-- Sample backend: a complete `gf_t` for GF(2^w) with polynomial `poly`. -/
def sample_gf (w poly : Nat) : gf_t :=
  { multiply := some fun _ a b => sample_mul w poly a b
    divide := some fun _ a b => sample_div w poly a b
    inverse := some fun _ a => sample_div w poly 1 a
    multiply_region := some sample_region
    extract_word := some fun _ _ _ _ => 0 }

/-- Sample polynomial per width: 7 for w = 2, 0x11D for w = 8, and x^w + 1 otherwise. -/
def sample_poly (w : Int) : Nat :=
  if w = 2 then 7 else if w = 8 then 285 else 2 ^ w.toNat + 1

/-- Sample environment: every allocation and every construction succeeds. -/
def sample_env : Env :=
  { malloc := fun log => 1000 + log.length
    gf_scratch_size := fun _ _ _ _ _ _ => 64
    gf_init_easy := fun _ w => some (sample_gf w.toNat (sample_poly w))
    gf_init_hard := fun _ w _ _ _ _ _ _ _ _ => some (sample_gf w.toNat (sample_poly w))
    gf_free := fun _ _ => 0
    fresh := { gf := 7, gfp_array := fun _ => 9, gfp_is_composite := fun _ => 5 } }

/-- Sample state: an empty registry at address 100, no objects, 0..255 repeated in
memory. -/
def empty_state : State :=
  { g := 100
    reg := { gf := NULL, gfp_array := fun _ => NULL, gfp_is_composite := fun _ => 0 }
    objs := fun _ => none
    mem := fun a => a % 256
    log := [] }

/-- Sample state: the empty registry with a complete `gf_t` for width 8 living at
address 200, not installed in any slot. -/
def state_with_object : State :=
  { empty_state with objs := setAt empty_state.objs 200 (some (sample_gf 8 285)) }

/-- Sample state: slot 8 populated with the object at address 200. -/
def populated_state : State :=
  state_with_object.setSlot 8 200

/-- Sample state: slot 8 populated with the object at address 200 and flagged
composite. -/
def flagged_state : State :=
  { populated_state with
    reg := { populated_state.reg with
      gfp_is_composite := setIdx populated_state.reg.gfp_is_composite 8 1 } }

/-- Sample state: slot 8 populated with the object at address 200 and index 40,
which is no width of 1..32, holding the address 240. -/
def stray_state : State :=
  populated_state.setSlot 40 240

/-- Sample environment: allocations succeed, default construction by the backend
fails. -/
def failing_env : Env :=
  { sample_env with gf_init_easy := fun _ _ => none }

/-- The pointers `galois_destroy` hands to `free`, in order: `g->gf`, the slots
`0 .. MAX_GF_INSTANCES - 1`, then `g`; `free(NULL)` releases nothing. -/
def destroy_frees (s : State) : List Ptr :=
  ((s.reg.gf ::
      (List.range MAX_GF_INSTANCES).map fun (i : Nat) => s.reg.gfp_array (Int.ofNat i)) ++
    [s.g]).filter fun p => p ≠ NULL

/-- Releasing the pointers `ps` one after the other. -/
def free_all (s : State) : List Ptr → Option State
  | [] => some s
  | p :: t =>
    match free_once s p with
    | none => none
    | some s1 => free_all s1 t

/-- Whether every pointer `galois_destroy` hands to `free` is handed over once and is
not released already. -/
def destroy_safe (s : State) : Prop :=
  (destroy_frees s).Nodup ∧ ∀ p ∈ destroy_frees s, is_released s.log p = false

/-- Sample state: the registry at address 100 whose slot 8 holds the registry's own
address, as `galois_change_technique` leaves it. -/
def aliased_state : State :=
  state_with_object.setSlot 8 100

/-- The state a freshly returned registry lives in: the registry of `s` replaced by
the object `r` at address `g`. -/
def State.withRegistry (s : State) (g : Ptr) (r : gf2_t) : State :=
  { s with g := g, reg := r }

end Galois

namespace Galois

/-! ## Conversions between `int` and `uint32_t` -/

theorem toU32_toI32 (n : Nat) (h : n < 4294967296) : toU32 (toI32 n) = n := by
  unfold toU32 toI32
  rw [Nat.mod_eq_of_lt h]
  split <;> omega

theorem toI32_ne_zero (n : Nat) (h0 : n ≠ 0) (h : n < 4294967296) : toI32 n ≠ 0 := by
  unfold toI32
  rw [Nat.mod_eq_of_lt h]
  split <;> omega

theorem toI32_one : toI32 1 = 1 := by decide

theorem toU32_one : toU32 1 = 1 := by decide

theorem two_pow_le_u32 (w : Nat) (h : w ≤ 32) : 2 ^ w ≤ 4294967296 := by
  have : (2 : Nat) ^ w ≤ 2 ^ 32 := Nat.pow_le_pow_right (by decide) h
  simpa using this

/-! ## The lazily constructed slot -/

theorem ensure_default_populated (env : Env) (s : State) (w : Int)
    (h : s.reg.gfp_array w ≠ NULL) : ensure_default env s w = Outcome.ok () s := by
  simp [ensure_default, h]

theorem ensure_default_absent (env : Env) (s : State) (w : Int) (o : gf_t)
    (hw : 1 ≤ w ∧ w ≤ 32) (h : s.reg.gfp_array w = NULL) (hm : env.malloc s.log ≠ NULL)
    (hi : env.gf_init_easy (env.malloc s.log) w = some o) :
    ensure_default env s w = Outcome.ok () (constructed env s w o) := by
  have h1 : ¬ (w ≤ 0 ∨ w > 32) := by omega
  simp [ensure_default, galois_init, galois_init_default_field, h, hm, hi, h1, ENOMEM, EINVAL,
    constructed, State.emit, State.setSlot]

/-- After the guard has run with success the slot holds the serving instance. -/
theorem ensure_default_served (env : Env) (s : State) (w : Int) (p : Ptr) (o : gf_t)
    (hw : 1 ≤ w ∧ w ≤ 32) (h : served env s w = some (p, o)) :
    ∃ s1, ensure_default env s w = Outcome.ok () s1 ∧ s1.reg.gfp_array w = p ∧ p ≠ NULL ∧
      s1.objs p = some o ∧ s1.mem = s.mem ∧
      (s.reg.gfp_array w ≠ NULL → s1 = s) ∧
      (s.reg.gfp_array w = NULL →
        s1.log = s.log ++ [Event.malloc p, Event.gf_init_easy p w]) := by
  unfold served at h
  by_cases hs : s.reg.gfp_array w = NULL
  · simp only [hs, ne_eq, not_true_eq_false, if_false] at h
    by_cases hm : env.malloc s.log = NULL
    · simp [hm] at h
    · simp only [hm, if_false] at h
      cases ho1 : env.gf_init_easy (env.malloc s.log) w with
      | none => simp [ho1] at h
      | some o1 =>
      simp only [ho1, Option.map_some, Option.some.injEq, Prod.mk.injEq] at h
      obtain ⟨hp, ho⟩ := h
      refine ⟨constructed env s w o, ensure_default_absent env s w o hw hs hm ho1, ?_, hm, ?_, ?_,
        ?_, ?_⟩
      · simp [constructed, State.emit, State.setSlot, setIdx]
      · simp [constructed, setAt]
      · simp [constructed, State.emit, State.setSlot]
      · intro hne; exact absurd hs hne
      · intro _; simp [constructed, State.emit, State.setSlot]
  · simp only [ne_eq, hs, not_false_eq_true, if_true] at h
    cases ho1 : s.objs (s.reg.gfp_array w) with
    | none => simp [ho1] at h
    | some o1 =>
    simp only [ho1, Option.map_some, Option.some.injEq, Prod.mk.injEq] at h
    obtain ⟨hp, ho⟩ := h
    exact ⟨s, ensure_default_populated env s w hs, rfl, hs, ho1, rfl, fun _ => rfl,
      fun hn => absurd hn hs⟩

/-! ## Scalar dispatch: zero operands, division by zero, inverse -/

/-- C1, as the code has it: `galois_single_divide(g, x, 0, w)` returns the sentinel
-1 for every nonzero dividend `x`, whatever the registry and the width, and leaves
the state untouched; for the dividend 0 the first guard wins and the result is 0. -/
theorem galois_single_divide_by_zero (env : Env) (s : State) (x w : Int) :
    (x ≠ 0 → galois_single_divide env s x 0 w = Outcome.ok (-1) s) ∧
    galois_single_divide env s 0 0 w = Outcome.ok 0 s := by
  constructor
  · intro hx
    simp [galois_single_divide, hx]
  · simp [galois_single_divide]

/-- Instance of C1 as amended: 7 / 0 at width 8 on the empty registry. -/
theorem galois_single_divide_by_zero_witness :
    (7 : Int) ≠ 0 ∧
    galois_single_divide sample_env empty_state 7 0 8 = Outcome.ok (-1) empty_state :=
  ⟨by decide, (galois_single_divide_by_zero sample_env empty_state 7 8).1 (by decide)⟩

/-- C1 as stated fails at x = 0: `galois_single_divide(g, 0, 0, 8)` returns 0, not
the sentinel -1. -/
theorem galois_single_divide_zero_by_zero :
    (galois_single_divide sample_env empty_state 0 0 8).val? = some 0 ∧
    (galois_single_divide sample_env empty_state 0 0 8).val? ≠ some (-1) := by
  decide

theorem call_divide_eq (s : State) (w x y : Int) (p : Ptr) (o : gf_t) (dv : Ptr → Nat → Nat → Nat)
    (hp : s.reg.gfp_array w = p) (hn : p ≠ NULL) (ho : s.objs p = some o)
    (hd : o.divide = some dv) :
    call_divide s w x y =
      Outcome.ok (toI32 (dv p (toU32 x) (toU32 y))) (s.emit (Event.divide p p (toU32 x) (toU32 y))) := by
  simp [call_divide, State.deref, hp, hn, ho, hd]

theorem call_multiply_eq (s : State) (w x y : Int) (p : Ptr) (o : gf_t)
    (mul : Ptr → Nat → Nat → Nat)
    (hp : s.reg.gfp_array w = p) (hn : p ≠ NULL) (ho : s.objs p = some o)
    (hm : o.multiply = some mul) :
    call_multiply s w x y =
      Outcome.ok (toI32 (mul p (toU32 x) (toU32 y)))
        (s.emit (Event.multiply p p (toU32 x) (toU32 y))) := by
  simp [call_multiply, State.deref, hp, hn, ho, hm]

/-- C2: for a width `w` in 1..32 and a nonzero field element `a < 2^w` (passed as
the C `int` it converts to), when the instance serving `w` (the populated slot, or
the default instance constructed on first use) has a multiply and a divide that
obey the laws of GF(2^w), `galois_single_multiply(g, a, galois_inverse(g, a, w), w)`
returns 1. -/
theorem multiply_inverse_round_trip (env : Env) (s : State) (w : Int) (a : Nat) (p : Ptr)
    (o : gf_t) (mul dv : Ptr → Nat → Nat → Nat)
    (hw : 1 ≤ w ∧ w ≤ 32) (ha : 0 < a ∧ a < 2 ^ w.toNat)
    (hserved : served env s w = some (p, o))
    (hmul : o.multiply = some mul) (hdiv : o.divide = some dv)
    (hgf : GFArith w.toNat (mul p) (dv p)) :
    ((galois_inverse env s (toI32 a) w).bind fun inv s1 =>
      galois_single_multiply env s1 (toI32 a) inv w).val? = some 1 := by
  have hwn : w.toNat ≤ 32 := by omega
  have hpow : 2 ^ w.toNat ≤ 4294967296 := two_pow_le_u32 w.toNat hwn
  have hone : 1 < 2 ^ w.toNat := Nat.one_lt_two_pow (by omega)
  have ha32 : a < 4294967296 := by omega
  have hane : a ≠ 0 := by omega
  have hxi : toI32 a ≠ 0 := toI32_ne_zero a hane ha32
  -- the quotient 1 / a is a nonzero field element
  have hq_lt : dv p 1 a < 2 ^ w.toNat := hgf.div_lt 1 hone a ha.2 hane
  have hq_mul : mul p (dv p 1 a) a = 1 := hgf.div_mul 1 hone a ha.2 hane
  have hq_ne : dv p 1 a ≠ 0 := by
    intro h0
    rw [h0, hgf.zero_mul a ha.2] at hq_mul
    exact absurd hq_mul (by decide)
  have hqi : toI32 (dv p 1 a) ≠ 0 := toI32_ne_zero _ hq_ne (by omega)
  obtain ⟨s1, he, hslot, hpn, hobj, _, _, _⟩ := ensure_default_served env s w p o hw hserved
  have hinv : galois_inverse env s (toI32 a) w =
      Outcome.ok (toI32 (dv p 1 a)) (s1.emit (Event.divide p p 1 a)) := by
    have h10 : (1 : Int) ≠ 0 := by decide
    simp only [galois_inverse, galois_single_divide, hxi, h10, if_false, he, Outcome.bind, hw.2,
      if_true]
    rw [call_divide_eq s1 w 1 (toI32 a) p o dv hslot hpn hobj hdiv, toU32_one,
      toU32_toI32 a ha32]
  have hslot2 : (s1.emit (Event.divide p p 1 a)).reg.gfp_array w = p := by
    simpa [State.emit] using hslot
  have hobj2 : (s1.emit (Event.divide p p 1 a)).objs p = some o := by
    simpa [State.emit] using hobj
  have hne2 : (s1.emit (Event.divide p p 1 a)).reg.gfp_array w ≠ NULL := by
    rw [hslot2]; exact hpn
  rw [hinv]
  simp only [Outcome.bind, galois_single_multiply, hxi, hqi, or_self, if_false,
    ensure_default_populated env _ w hne2, hw.2, if_true]
  rw [call_multiply_eq _ w (toI32 a) (toI32 (dv p 1 a)) p o mul hslot2 hpn hobj2 hmul,
    toU32_toI32 a ha32, toU32_toI32 _ (by omega),
    hgf.mul_comm a ha.2 (dv p 1 a) hq_lt, hq_mul, toI32_one]
  rfl

/-- The sample GF(4) backend obeys the field laws used above. -/
theorem sample_gf4_arith : GFArith 2 (sample_mul 2 7) (sample_div 2 7) := by
  constructor <;> decide

/-- Instance of C2: the element 3 of GF(4) on the empty registry, served by the
sample backend constructed on first use. -/
theorem multiply_inverse_round_trip_witness :
    ((galois_inverse sample_env empty_state (toI32 3) 2).bind fun inv s1 =>
      galois_single_multiply sample_env s1 (toI32 3) inv 2).val? = some 1 :=
  multiply_inverse_round_trip sample_env empty_state 2 3 1000 (sample_gf 2 7)
    (fun _ a b => sample_mul 2 7 a b) (fun _ a b => sample_div 2 7 a b)
    (by decide) (by decide) rfl rfl rfl sample_gf4_arith

/-- C3: `galois_inverse(g, 0, w)` returns -1 and leaves the state as it was; for
every nonzero `y`, `galois_inverse(g, y, w)` is `galois_single_divide(g, 1, y, w)`:
same returned value, same final state. -/
theorem galois_inverse_is_divide_one (env : Env) (s : State) (y w : Int) :
    (y = 0 → galois_inverse env s y w = Outcome.ok (-1) s) ∧
    (y ≠ 0 → galois_inverse env s y w = galois_single_divide env s 1 y w) := by
  constructor
  · intro hy
    simp [galois_inverse, hy]
  · intro hy
    simp [galois_inverse, hy]

/-- Instance of C3: inverse of 0 and inverse of 3 at width 8 on the empty registry. -/
theorem galois_inverse_is_divide_one_witness :
    galois_inverse sample_env empty_state 0 8 = Outcome.ok (-1) empty_state ∧
    ((3 : Int) ≠ 0 ∧
      galois_inverse sample_env empty_state 3 8 = galois_single_divide sample_env empty_state 1 3 8) :=
  ⟨(galois_inverse_is_divide_one sample_env empty_state 0 8).1 rfl, by decide,
    (galois_inverse_is_divide_one sample_env empty_state 3 8).2 (by decide)⟩

/-- C4: when `x == 0` or `y == 0`, `galois_single_multiply(g, x, y, w)` returns 0 at
once for every registry and every width, in range or not: the state it returns is
the state it was given, so no slot was constructed, nothing was allocated and no
backend function was called. -/
theorem galois_single_multiply_zero (env : Env) (s : State) (x y w : Int)
    (h : x = 0 ∨ y = 0) : galois_single_multiply env s x y w = Outcome.ok 0 s := by
  unfold galois_single_multiply
  rw [if_pos h]

/-- Instance of C4: 0 * 5 at the out-of-range width 77 on the empty registry. -/
theorem galois_single_multiply_zero_witness :
    ((0 : Int) = 0 ∨ (5 : Int) = 0) ∧
    galois_single_multiply sample_env empty_state 0 5 77 = Outcome.ok 0 empty_state :=
  ⟨by decide, galois_single_multiply_zero sample_env empty_state 0 5 77 (by decide)⟩

/-! ## Region XOR: the byte loop and the width-32 path -/

/-- On buffers that do not overlap, the loop of `galois_region_xor` computes the
byte-by-byte XOR. -/
theorem xor_loop_eq_bytewise (n : Nat) :
    ∀ (m : Memory) (src dest : Nat), disjoint_buffers src dest n →
      xor_loop m src dest n = bytewise_xor m src dest n := by
  induction n with
  | zero =>
    intro m src dest _
    funext a
    have h : ¬ (dest ≤ a ∧ a < dest + 0) := by omega
    simp only [xor_loop, bytewise_xor, if_neg h]
  | succ k ih =>
    intro m src dest hd
    have hd1 : disjoint_buffers (src + 1) (dest + 1) k := by
      unfold disjoint_buffers at hd ⊢
      omega
    rw [xor_loop, ih _ _ _ hd1]
    unfold disjoint_buffers at hd
    funext a
    unfold bytewise_xor setAt
    by_cases h1 : dest + 1 ≤ a ∧ a < dest + 1 + k
    · have h2 : dest ≤ a ∧ a < dest + (k + 1) := by omega
      have h3 : a ≠ dest := by omega
      have h4 : src + 1 + (a - (dest + 1)) ≠ dest := by omega
      have h5 : src + 1 + (a - (dest + 1)) = src + (a - dest) := by omega
      rw [if_pos h1, if_pos h2, if_neg h3, if_neg h4, h5]
    · rw [if_neg h1]
      by_cases h3 : a = dest
      · have h2 : dest ≤ a ∧ a < dest + (k + 1) := by omega
        rw [if_pos h3, if_pos h2, h3]
        simp
      · have h2 : ¬ (dest ≤ a ∧ a < dest + (k + 1)) := by omega
        rw [if_neg h3, if_neg h2]

/-- C5: for `nbytes < 16` and buffers that do not overlap, `galois_region_xor`
returns with only the byte memory changed (registry, objects and effect log are
those of the input state, and the new memory is a function of the old memory
alone): `dest[i]` becomes `dest[i] XOR src[i]` for `0 <= i < nbytes`, every byte
outside `dest[0..nbytes)` keeps its value, `src` included, and for `nbytes <= 0`
the state is unchanged. -/
theorem galois_region_xor_small (env : Env) (s : State) (src dest : Nat) (n : Int)
    (hn : n < 16) (hd : disjoint_buffers src dest n.toNat) :
    galois_region_xor env s src dest n =
      Outcome.ok () { s with mem := xor_loop s.mem src dest n.toNat } ∧
    (∀ i, i < n.toNat →
      xor_loop s.mem src dest n.toNat (dest + i) = (s.mem (dest + i) ^^^ s.mem (src + i)) % 256) ∧
    (∀ a, ¬ (dest ≤ a ∧ a < dest + n.toNat) → xor_loop s.mem src dest n.toNat a = s.mem a) ∧
    (∀ i, i < n.toNat → xor_loop s.mem src dest n.toNat (src + i) = s.mem (src + i)) ∧
    (n ≤ 0 → galois_region_xor env s src dest n = Outcome.ok () s) := by
  have hlt : ¬ (n ≥ 16) := by omega
  have hrun : galois_region_xor env s src dest n =
      Outcome.ok () { s with mem := xor_loop s.mem src dest n.toNat } := by
    simp [galois_region_xor, hlt]
  rw [xor_loop_eq_bytewise n.toNat s.mem src dest hd]
  refine ⟨by rw [hrun, xor_loop_eq_bytewise n.toNat s.mem src dest hd], ?_, ?_, ?_, ?_⟩
  · intro i hi
    have h1 : dest ≤ dest + i ∧ dest + i < dest + n.toNat := by omega
    have h2 : dest + i - dest = i := by omega
    simp only [bytewise_xor, if_pos h1, h2]
  · intro a ha
    simp only [bytewise_xor, if_neg ha]
  · intro i hi
    unfold disjoint_buffers at hd
    have h1 : ¬ (dest ≤ src + i ∧ src + i < dest + n.toNat) := by omega
    simp only [bytewise_xor, if_neg h1]
  · intro h0
    have hz : n.toNat = 0 := by omega
    rw [hrun, hz]
    rfl

/-- Instance of C5: 15 bytes from address 300 XORed into address 400. -/
theorem galois_region_xor_small_witness :
    ((15 : Int) < 16 ∧ disjoint_buffers 300 400 (15 : Int).toNat) ∧
    (galois_region_xor sample_env empty_state 300 400 15 =
      Outcome.ok () { empty_state with mem := xor_loop empty_state.mem 300 400 (15 : Int).toNat } ∧
    (∀ i, i < (15 : Int).toNat →
      xor_loop empty_state.mem 300 400 (15 : Int).toNat (400 + i) =
        (empty_state.mem (400 + i) ^^^ empty_state.mem (300 + i)) % 256) ∧
    (∀ a, ¬ (400 ≤ a ∧ a < 400 + (15 : Int).toNat) →
      xor_loop empty_state.mem 300 400 (15 : Int).toNat a = empty_state.mem a) ∧
    (∀ i, i < (15 : Int).toNat →
      xor_loop empty_state.mem 300 400 (15 : Int).toNat (300 + i) = empty_state.mem (300 + i)) ∧
    ((15 : Int) ≤ 0 →
      galois_region_xor sample_env empty_state 300 400 15 = Outcome.ok () empty_state)) :=
  ⟨⟨by decide, by unfold disjoint_buffers; decide⟩,
    galois_region_xor_small sample_env empty_state 300 400 15 (by decide)
      (by unfold disjoint_buffers; decide)⟩

theorem call_multiply_region_eq (s : State) (callee gf src dest : Ptr) (val bytes add : Int)
    (o : gf_t) (f : Ptr → Ptr → Ptr → Nat → Int → Int → Memory → Memory)
    (hn : callee ≠ NULL) (ho : s.objs callee = some o) (hf : o.multiply_region = some f) :
    call_multiply_region s callee gf src dest val bytes add =
      Outcome.ok ()
        { s.emit (Event.multiply_region callee gf src dest (toU32 val) bytes add) with
          mem := f gf src dest (toU32 val) bytes add s.mem } := by
  simp [call_multiply_region, State.deref, hn, ho, hf]

/-- C6: the switch of `galois_region_xor` is at 16.  Below 16 the loop runs and no
backend is called.  From 16 on the call is `galois_w32_region_xor`: the region
multiply read from slot 32 is called once, on slot 32's instance, with `src`,
`dest`, `nbytes`, multiplier 1 and accumulate 1.  When that region multiply by 1
with accumulate is a byte-by-byte XOR of `src` into `dest`, the memory it leaves is
the memory the loop would leave, so both paths compute the same bytes at every
length. -/
theorem galois_region_xor_paths_agree (env : Env) (s : State) (src dest : Nat) (n : Int)
    (p : Ptr) (o : gf_t) (f : Ptr → Ptr → Ptr → Nat → Int → Int → Memory → Memory)
    (hserved : served env s 32 = some (p, o)) (hreg : o.multiply_region = some f)
    (hd : disjoint_buffers src dest n.toNat)
    (hxor : ∀ m, f p src dest 1 n 1 m = bytewise_xor m src dest n.toNat) :
    (n < 16 → galois_region_xor env s src dest n =
      Outcome.ok () { s with mem := xor_loop s.mem src dest n.toNat }) ∧
    (16 ≤ n →
      galois_region_xor env s src dest n = galois_w32_region_xor env s src dest n ∧
      ∃ s1, ensure_default env s 32 = Outcome.ok () s1 ∧ s1.reg.gfp_array 32 = p ∧
        galois_region_xor env s src dest n =
          Outcome.ok () { s1.emit (Event.multiply_region p p src dest 1 n 1) with
            mem := xor_loop s.mem src dest n.toNat }) := by
  constructor
  · intro hn
    have hlt : ¬ (n ≥ 16) := by omega
    simp [galois_region_xor, hlt]
  · intro hn
    have hge : n ≥ 16 := hn
    have hdel : galois_region_xor env s src dest n = galois_w32_region_xor env s src dest n := by
      simp [galois_region_xor, hge]
    refine ⟨hdel, ?_⟩
    obtain ⟨s1, he, hslot, hpn, hobj, hmem, _, _⟩ :=
      ensure_default_served env s 32 p o (by decide) hserved
    refine ⟨s1, he, hslot, ?_⟩
    rw [hdel]
    simp only [galois_w32_region_xor, he, Outcome.bind, hslot]
    rw [call_multiply_region_eq s1 p p src dest 1 n 1 o f hpn hobj hreg, toU32_one, hxor, hmem,
      xor_loop_eq_bytewise n.toNat s.mem src dest hd]

/-- Instance of C6 at the lengths 15, 16 and 17 on the empty registry with the
sample backend: 15 runs the loop, 16 and 17 call slot 32's region multiply. -/
theorem galois_region_xor_paths_agree_witness :
    galois_region_xor sample_env empty_state 300 400 15 =
      Outcome.ok () { empty_state with mem := xor_loop empty_state.mem 300 400 15 } ∧
    galois_region_xor sample_env empty_state 300 400 16 =
      galois_w32_region_xor sample_env empty_state 300 400 16 ∧
    galois_region_xor sample_env empty_state 300 400 17 =
      galois_w32_region_xor sample_env empty_state 300 400 17 :=
  ⟨(galois_region_xor_paths_agree sample_env empty_state 300 400 15 1000
      (sample_gf 32 4294967297) sample_region rfl rfl (by unfold disjoint_buffers; decide)
      (fun _ => rfl)).1 (by decide),
    ((galois_region_xor_paths_agree sample_env empty_state 300 400 16 1000
      (sample_gf 32 4294967297) sample_region rfl rfl (by unfold disjoint_buffers; decide)
      (fun _ => rfl)).2 (by decide)).1,
    ((galois_region_xor_paths_agree sample_env empty_state 300 400 17 1000
      (sample_gf 32 4294967297) sample_region rfl rfl (by unfold disjoint_buffers; decide)
      (fun _ => rfl)).2 (by decide)).1⟩

/-! ## Explicit construction and replacement -/

/-- Whenever the width is in range and both allocations of `galois_init_field`
succeed, the test `!gf2p || gf2p->gf` of line 102 is true and the call aborts with
the allocation message, before the backend is asked anything. -/
theorem galois_init_field_aborts_when_allocated (env : Env) (s : State)
    (w mult_type region_type divide_type : Int) (prim_poly : Nat) (arg1 arg2 : Int)
    (hw : 1 ≤ w ∧ w ≤ 32) (h1 : env.malloc s.log ≠ NULL)
    (h2 : env.malloc (s.log ++ [Event.malloc (env.malloc s.log)]) ≠ NULL) :
    galois_init_field env s w mult_type region_type divide_type prim_poly arg1 arg2 =
      Outcome.fatal (((s.emit (Event.malloc (env.malloc s.log))).emit
        (Event.malloc (env.malloc (s.log ++ [Event.malloc (env.malloc s.log)])))).emit
        (Event.stderr Msg.cannot_allocate w)) := by
  have hr : ¬ (w ≤ 0 ∨ w > 32) := by omega
  simp [galois_init_field, hr, h1, h2, State.emit]

/-- Whatever the environment, an instance `galois_init_field` returns has a NULL
`gf` handle, which the validator rejects. -/
theorem galois_init_field_returns_null_handle (env : Env) (s s2 : State)
    (w mult_type region_type divide_type : Int) (prim_poly : Nat) (arg1 arg2 : Int)
    (gp : Ptr) (r : gf2_t)
    (h : galois_init_field env s w mult_type region_type divide_type prim_poly arg1 arg2 =
      Outcome.ok (gp, r) s2) :
    r.gf = NULL ∧ is_valid_gf s2 r.gf w = some 0 := by
  have key : r.gf = NULL := by
    unfold galois_init_field at h
    simp only at h
    split_ifs at h with c1 c2 c3 c4 c5
    split at h
    · cases h
    · simp only [Outcome.ok.injEq, Prod.mk.injEq] at h
      have hgf : env.malloc (s.emit (Event.malloc (env.malloc s.log))).log = NULL := by
        by_contra hne
        exact c3 (Or.inr hne)
      rw [← h.1.2]
      exact hgf
  exact ⟨key, by simp [is_valid_gf, key]⟩

/-- C7 fails on the code: with width 8 and an environment in which every allocation
succeeds, the scratch size is 64 and backend construction succeeds,
`galois_init_field` does not return; it aborts on line 104 after the two
allocations, with the message for a failed allocation. -/
theorem galois_init_field_sample_aborts :
    (galois_init_field sample_env empty_state 8 0 0 0 0 0 0).isFatal = true ∧
    (galois_init_field sample_env empty_state 8 0 0 0 0 0 0).val?.isNone = true ∧
    (galois_init_field sample_env empty_state 8 0 0 0 0 0 0).state?.map (fun st => st.log) =
      some [Event.malloc 1000, Event.malloc 1001, Event.stderr Msg.cannot_allocate 8] := by
  decide

/-- After a successful `galois_change_technique` slot `w` holds the registry's own
address `g` (line 279 assigns `g`), every other slot is unchanged. -/
theorem galois_change_technique_installs_registry (env : Env) (s : State) (gf : Ptr) (w : Int)
    (hw : 1 ≤ w ∧ w ≤ 32) (hv : is_valid_gf s gf w = some 1) :
    ∃ s1, galois_change_technique env s gf w = Outcome.ok () s1 ∧
      galois_get_field_ptr s1 w = s.g ∧ ∀ v, v ≠ w → s1.reg.gfp_array v = s.reg.gfp_array v := by
  have hr : ¬ (w ≤ 0 ∨ w > 32) := by omega
  refine ⟨_, by simp [galois_change_technique, hr, hv]; rfl, ?_, ?_⟩
  · by_cases hs : s.reg.gfp_array w = NULL
    · by_cases hg : s.g = NULL <;>
        simp [galois_get_field_ptr, State.setSlot, State.emit, setIdx, hs, hg]
    · by_cases hg : s.g = NULL <;>
        simp [galois_get_field_ptr, State.setSlot, State.emit, setIdx, hs, hg]
  · intro v hv
    by_cases hs : s.reg.gfp_array w = NULL <;>
      simp [State.setSlot, State.emit, setIdx, hs, hv]

/-- C8 fails on the code: the registry at address 100 has an empty slot 8 and the
instance at address 200 passes the validator; after
`galois_change_technique(g, gf, 8)` the slot holds 100, the registry's own address,
not 200. -/
theorem galois_change_technique_sample_slot :
    is_valid_gf state_with_object 200 8 = some 1 ∧
    (galois_change_technique sample_env state_with_object 200 8).state?.map
      (fun st => galois_get_field_ptr st 8) = some 100 ∧
    (galois_change_technique sample_env state_with_object 200 8).state?.map
      (fun st => galois_get_field_ptr st 8) ≠ some 200 := by
  decide

/-! ## Lazy construction and teardown of a slot -/

theorem constructed_slot (env : Env) (s : State) (w : Int) (o : gf_t) :
    (constructed env s w o).reg.gfp_array w = env.malloc s.log ∧
    (∀ v, v ≠ w → (constructed env s w o).reg.gfp_array v = s.reg.gfp_array v) ∧
    (constructed env s w o).objs (env.malloc s.log) = some o ∧
    (constructed env s w o).log =
      s.log ++ [Event.malloc (env.malloc s.log), Event.gf_init_easy (env.malloc s.log) w] := by
  refine ⟨by simp [constructed, State.emit, State.setSlot, setIdx], ?_,
    by simp [constructed, setAt], by simp [constructed, State.emit, State.setSlot]⟩
  intro v hv
  simp [constructed, State.emit, State.setSlot, setIdx, hv]

theorem single_multiply_absent (env : Env) (s : State) (x y w : Int) (o : gf_t)
    (f : Ptr → Nat → Nat → Nat) (hw : 1 ≤ w ∧ w ≤ 32) (hx : x ≠ 0) (hy : y ≠ 0)
    (hs : s.reg.gfp_array w = NULL) (hm : env.malloc s.log ≠ NULL)
    (hi : env.gf_init_easy (env.malloc s.log) w = some o) (hf : o.multiply = some f) :
    galois_single_multiply env s x y w =
      Outcome.ok (toI32 (f (env.malloc s.log) (toU32 x) (toU32 y)))
        ((constructed env s w o).emit
          (Event.multiply (env.malloc s.log) (env.malloc s.log) (toU32 x) (toU32 y))) := by
  obtain ⟨h1, _, h3, _⟩ := constructed_slot env s w o
  simp only [galois_single_multiply, hx, hy, or_self, if_false,
    ensure_default_absent env s w o hw hs hm hi, Outcome.bind, hw.2, if_true]
  exact call_multiply_eq _ w x y _ o f h1 hm h3 hf

theorem single_divide_absent (env : Env) (s : State) (x y w : Int) (o : gf_t)
    (d : Ptr → Nat → Nat → Nat) (hw : 1 ≤ w ∧ w ≤ 32) (hx : x ≠ 0) (hy : y ≠ 0)
    (hs : s.reg.gfp_array w = NULL) (hm : env.malloc s.log ≠ NULL)
    (hi : env.gf_init_easy (env.malloc s.log) w = some o) (hf : o.divide = some d) :
    galois_single_divide env s x y w =
      Outcome.ok (toI32 (d (env.malloc s.log) (toU32 x) (toU32 y)))
        ((constructed env s w o).emit
          (Event.divide (env.malloc s.log) (env.malloc s.log) (toU32 x) (toU32 y))) := by
  obtain ⟨h1, _, h3, _⟩ := constructed_slot env s w o
  simp only [galois_single_divide, hx, hy, if_false,
    ensure_default_absent env s w o hw hs hm hi, Outcome.bind, hw.2, if_true]
  exact call_divide_eq _ w x y _ o d h1 hm h3 hf

/-- C9: for a width in 1..32 and nonzero operands.  If slot `w` is absent and
default construction succeeds with object `o` at the freshly allocated address,
`galois_single_multiply` and `galois_single_divide` return the product and the
quotient computed by `o`, in a state where slot `w` holds that address, the object
lives there and every other slot is as before.  If slot `w` is populated, nothing
is constructed: the state returned is the input state with the one backend call
appended to the log, and the result comes from the instance already in the slot. -/
theorem lazy_construction_on_first_use (env : Env) (s : State) (x y w : Int)
    (hw : 1 ≤ w ∧ w ≤ 32) (hx : x ≠ 0) (hy : y ≠ 0) :
    (∀ o f d, s.reg.gfp_array w = NULL → env.malloc s.log ≠ NULL →
      env.gf_init_easy (env.malloc s.log) w = some o → o.multiply = some f → o.divide = some d →
      galois_single_multiply env s x y w =
        Outcome.ok (toI32 (f (env.malloc s.log) (toU32 x) (toU32 y)))
          ((constructed env s w o).emit
            (Event.multiply (env.malloc s.log) (env.malloc s.log) (toU32 x) (toU32 y))) ∧
      galois_single_divide env s x y w =
        Outcome.ok (toI32 (d (env.malloc s.log) (toU32 x) (toU32 y)))
          ((constructed env s w o).emit
            (Event.divide (env.malloc s.log) (env.malloc s.log) (toU32 x) (toU32 y))) ∧
      galois_get_field_ptr (constructed env s w o) w = env.malloc s.log ∧
      (∀ v, v ≠ w → (constructed env s w o).reg.gfp_array v = s.reg.gfp_array v) ∧
      (constructed env s w o).objs (env.malloc s.log) = some o) ∧
    (∀ o f d, s.reg.gfp_array w ≠ NULL → s.objs (s.reg.gfp_array w) = some o →
      o.multiply = some f → o.divide = some d →
      galois_single_multiply env s x y w =
        Outcome.ok (toI32 (f (s.reg.gfp_array w) (toU32 x) (toU32 y)))
          (s.emit (Event.multiply (s.reg.gfp_array w) (s.reg.gfp_array w) (toU32 x) (toU32 y))) ∧
      galois_single_divide env s x y w =
        Outcome.ok (toI32 (d (s.reg.gfp_array w) (toU32 x) (toU32 y)))
          (s.emit (Event.divide (s.reg.gfp_array w) (s.reg.gfp_array w) (toU32 x) (toU32 y)))) := by
  constructor
  · intro o f d hs hm hi hf hd
    obtain ⟨h1, h2, h3, _⟩ := constructed_slot env s w o
    refine ⟨single_multiply_absent env s x y w o f hw hx hy hs hm hi hf,
      single_divide_absent env s x y w o d hw hx hy hs hm hi hd, ?_, h2, h3⟩
    simp [galois_get_field_ptr, h1, hm]
  · intro o f d hs ho hf hd
    constructor
    · simp only [galois_single_multiply, hx, hy, or_self, if_false,
        ensure_default_populated env s w hs, Outcome.bind, hw.2, if_true]
      exact call_multiply_eq s w x y _ o f rfl hs ho hf
    · simp only [galois_single_divide, hx, hy, if_false,
        ensure_default_populated env s w hs, Outcome.bind, hw.2, if_true]
      exact call_divide_eq s w x y _ o d rfl hs ho hd

/-- Instance of C9, the scenario of the specification: `multiply(g, 3, 5, 8)` on the
empty registry constructs the default width-8 instance at the fresh address 1000,
returns the product 15 and leaves `get(8)` populated. -/
theorem lazy_construction_on_first_use_witness :
    galois_single_multiply sample_env empty_state 3 5 8 =
      Outcome.ok 15 ((constructed sample_env empty_state 8 (sample_gf 8 285)).emit
        (Event.multiply 1000 1000 3 5)) ∧
    galois_get_field_ptr (constructed sample_env empty_state 8 (sample_gf 8 285)) 8 = 1000 :=
  have h := (lazy_construction_on_first_use sample_env empty_state 3 5 8 (by decide) (by decide)
    (by decide)).1 (sample_gf 8 285) (fun _ a b => sample_mul 8 285 a b)
    (fun _ a b => sample_div 8 285 a b) rfl (by decide) rfl rfl rfl
  ⟨h.1, h.2.2.1⟩

/-- C10: for a width in 1..32, `galois_uninit_field` on an absent slot returns 0 and
leaves the state as it was; on a populated slot it returns with `get(w)` absent and
every other slot unchanged, and a following `galois_single_multiply` for `w` with
nonzero operands runs a fresh default construction: when that construction
succeeds the product comes from the new instance at the newly allocated address. -/
theorem galois_uninit_field_releases_slot (env : Env) (s : State) (w : Int)
    (hw : 1 ≤ w ∧ w ≤ 32) :
    (s.reg.gfp_array w = NULL → galois_uninit_field env s w = Outcome.ok 0 s) ∧
    (s.reg.gfp_array w ≠ NULL →
      ∃ s1, galois_uninit_field env s w = Outcome.ok (env.gf_free (s.reg.gfp_array w) 1) s1 ∧
        galois_get_field_ptr s1 w = NULL ∧
        (∀ v, v ≠ w → s1.reg.gfp_array v = s.reg.gfp_array v) ∧
        s1.log = s.log ++ [Event.gf_free (s.reg.gfp_array w) 1, Event.free (s.reg.gfp_array w)] ∧
        ∀ x y o f, x ≠ 0 → y ≠ 0 → env.malloc s1.log ≠ NULL →
          env.gf_init_easy (env.malloc s1.log) w = some o → o.multiply = some f →
          galois_single_multiply env s1 x y w =
            Outcome.ok (toI32 (f (env.malloc s1.log) (toU32 x) (toU32 y)))
              ((constructed env s1 w o).emit
                (Event.multiply (env.malloc s1.log) (env.malloc s1.log) (toU32 x) (toU32 y)))) := by
  constructor
  · intro hs
    simp [galois_uninit_field, hs]
  · intro hs
    have hslot : ((c_free (s.emit (Event.gf_free (s.reg.gfp_array w) 1))
        (s.reg.gfp_array w)).setSlot w NULL).reg.gfp_array w = NULL := by
      simp [State.setSlot, setIdx]
    refine ⟨(c_free (s.emit (Event.gf_free (s.reg.gfp_array w) 1)) (s.reg.gfp_array w)).setSlot
      w NULL, by simp [galois_uninit_field, hs], ?_, ?_, ?_, ?_⟩
    · simp [galois_get_field_ptr, hslot]
    · intro v hv
      simp [State.setSlot, setIdx, hv, c_free, hs, State.emit]
    · simp [State.setSlot, c_free, hs, State.emit]
    · intro x y o f hx hy hm hi hf
      exact single_multiply_absent env _ x y w o f hw hx hy hslot hm hi hf

/-- Instance of C10: slot 8 populated with the object at address 200 is torn down;
`get(8)` is then absent. -/
theorem galois_uninit_field_releases_slot_witness :
    populated_state.reg.gfp_array 8 ≠ NULL ∧
    ∃ s1, galois_uninit_field sample_env populated_state 8 =
        Outcome.ok (sample_env.gf_free (populated_state.reg.gfp_array 8) 1) s1 ∧
      galois_get_field_ptr s1 8 = NULL :=
  ⟨by decide,
    match (galois_uninit_field_releases_slot sample_env populated_state 8 (by decide)).2
      (by decide) with
    | ⟨s1, h1, h2, _⟩ => ⟨s1, h1, h2⟩⟩

/-! ## The empty registry, out-of-range widths, the validator -/

/-- Whatever `sizeof(gf2_t)` is, `galois_init_empty` returns the allocated object
with the content the allocator left in it: `memset` is called with length 0. -/
theorem galois_init_empty_keeps_content (env : Env) (s : State) (sizeof_gf2_t : Nat) :
    galois_init_empty env s sizeof_gf2_t =
      Outcome.ok (env.malloc s.log, env.fresh) (s.emit (Event.malloc (env.malloc s.log))) := by
  simp [galois_init_empty, memset_gf2]

/-- C11 fails on the code: when the allocator hands out memory whose slots hold the
stale value 9, the registry `galois_init_empty` returns still has 9 in slot 8, so
`galois_get_field_ptr` returns 9 there and not NULL. -/
theorem galois_init_empty_sample_slot :
    ((galois_init_empty sample_env empty_state 520).val?.map fun pr =>
      galois_get_field_ptr (empty_state.withRegistry pr.1 pr.2) 8) = some 9 ∧
    ((galois_init_empty sample_env empty_state 520).val?.map fun pr =>
      galois_get_field_ptr (empty_state.withRegistry pr.1 pr.2) 8) ≠ some NULL := by
  decide

/-- C12, as the code has it: for a width above 32 that is an index of the 64-entry
slot array (`32 < w < 64`) and nonzero operands, `galois_single_multiply` and
`galois_single_divide` report "not implemented" and return 0 when slot `w` is
populated; when slot `w` is absent they call `galois_init`, whose width guard
aborts the process before the width test of the dispatcher is reached. -/
theorem single_ops_above_32 (env : Env) (s : State) (x y w : Int)
    (hw : 32 < w ∧ w < 64) (hx : x ≠ 0) (hy : y ≠ 0) :
    (s.reg.gfp_array w ≠ NULL →
      galois_single_multiply env s x y w =
        Outcome.ok 0 (s.emit (Event.stderr Msg.not_implemented w)) ∧
      galois_single_divide env s x y w =
        Outcome.ok 0 (s.emit (Event.stderr Msg.not_implemented w))) ∧
    (s.reg.gfp_array w = NULL →
      galois_single_multiply env s x y w =
        Outcome.fatal (s.emit (Event.stderr Msg.cannot_init_default w)) ∧
      galois_single_divide env s x y w =
        Outcome.fatal (s.emit (Event.stderr Msg.cannot_init_default w))) := by
  have h32 : ¬ (w ≤ 32) := by omega
  have hr : w ≤ 0 ∨ w > 32 := Or.inr hw.1
  constructor
  · intro hs
    constructor
    · simp only [galois_single_multiply, hx, hy, or_self, if_false,
        ensure_default_populated env s w hs, Outcome.bind, h32]
    · simp only [galois_single_divide, hx, hy, if_false,
        ensure_default_populated env s w hs, Outcome.bind, h32]
  · intro hs
    constructor
    · simp only [galois_single_multiply, hx, hy, or_self, if_false, ensure_default, hs, if_true,
        galois_init, hr, Outcome.bind]
    · simp only [galois_single_divide, hx, hy, if_false, ensure_default, hs, if_true,
        galois_init, hr, Outcome.bind]

/-- Instance of C12 as amended: width 40 with index 40 populated returns 0 with the
message; width 33 on the empty registry aborts. -/
theorem single_ops_above_32_witness :
    (stray_state.reg.gfp_array 40 ≠ NULL ∧
      galois_single_multiply sample_env stray_state 3 5 40 =
        Outcome.ok 0 (stray_state.emit (Event.stderr Msg.not_implemented 40))) ∧
    (empty_state.reg.gfp_array 33 = NULL ∧
      galois_single_multiply sample_env empty_state 3 5 33 =
        Outcome.fatal (empty_state.emit (Event.stderr Msg.cannot_init_default 33))) :=
  ⟨⟨by decide, ((single_ops_above_32 sample_env stray_state 3 5 40 (by decide) (by decide)
      (by decide)).1 (by decide)).1⟩,
    ⟨by decide, ((single_ops_above_32 sample_env empty_state 3 5 33 (by decide) (by decide)
      (by decide)).2 (by decide)).1⟩⟩

/-- C12 as stated fails when slot `w` is absent: `galois_single_multiply(g, 3, 5, 33)`
and `galois_single_divide(g, 3, 5, 33)` on the empty registry abort and return
nothing. -/
theorem single_ops_above_32_abort :
    (galois_single_multiply sample_env empty_state 3 5 33).isFatal = true ∧
    (galois_single_multiply sample_env empty_state 3 5 33).val? ≠ some 0 ∧
    (galois_single_divide sample_env empty_state 3 5 33).isFatal = true ∧
    (galois_single_divide sample_env empty_state 3 5 33).val? ≠ some 0 := by
  decide

/-- C13: `is_valid_gf(gf, w)` returns 1 exactly when `gf` is not NULL and the object
it points to has all five of `multiply`, `multiply_region`, `divide`, `inverse` and
`extract_word`; for NULL and for an object missing one of them it returns 0; the
result is the same for every width. -/
theorem is_valid_gf_iff (s : State) (gf : Ptr) (w : Int) :
    (is_valid_gf s gf w = some 1 ↔
      gf ≠ NULL ∧ ∃ o, s.objs gf = some o ∧ o.multiply.isSome = true ∧
        o.multiply_region.isSome = true ∧ o.divide.isSome = true ∧ o.inverse.isSome = true ∧
        o.extract_word.isSome = true) ∧
    (gf = NULL ∨ (s.objs gf).isSome = true →
      is_valid_gf s gf w = some 1 ∨ is_valid_gf s gf w = some 0) ∧
    (∀ w2, is_valid_gf s gf w2 = is_valid_gf s gf w) := by
  refine ⟨?_, ?_, fun _ => rfl⟩
  · unfold is_valid_gf
    by_cases hg : gf = NULL
    · simp [hg]
    · cases ho : s.objs gf with
      | none => simp [hg]
      | some o =>
        simp only [hg, if_false, ne_eq, not_false_eq_true, Option.some.injEq, exists_eq_left',
          true_and]
        cases o.multiply <;> cases o.multiply_region <;> cases o.divide <;> cases o.inverse <;>
          cases o.extract_word <;> simp
  · intro h
    unfold is_valid_gf
    by_cases hg : gf = NULL
    · simp [hg]
    · cases ho : s.objs gf with
      | none => simp [hg, ho] at h
      | some o =>
        simp only [hg, if_false]
        split_ifs <;> simp

/-- Instance of C13: the complete object at address 200 passes, NULL does not. -/
theorem is_valid_gf_iff_witness :
    ((200 : Ptr) = NULL ∨ (state_with_object.objs 200).isSome = true) ∧
    (is_valid_gf state_with_object 200 8 = some 1 ∨ is_valid_gf state_with_object 200 8 = some 0) :=
  ⟨by decide, (is_valid_gf_iff state_with_object 200 8).2.1 (by decide)⟩

/-- C14: for a width in 1..32 and an instance the validator rejects,
`galois_change_technique` aborts; the state it aborts in is the input state with the
error message appended to the log: the registry and its slot `w` are as before and
neither `gf_free` nor `free` was called on the occupant. -/
theorem galois_change_technique_rejects_invalid (env : Env) (s : State) (gf : Ptr) (w : Int)
    (hw : 1 ≤ w ∧ w ≤ 32) (hv : is_valid_gf s gf w = some 0) :
    galois_change_technique env s gf w =
      Outcome.fatal (s.emit (Event.stderr Msg.overriding_with_invalid w)) ∧
    (s.emit (Event.stderr Msg.overriding_with_invalid w)).reg = s.reg ∧
    (s.emit (Event.stderr Msg.overriding_with_invalid w)).objs = s.objs ∧
    galois_get_field_ptr (s.emit (Event.stderr Msg.overriding_with_invalid w)) w =
      galois_get_field_ptr s w ∧
    (s.emit (Event.stderr Msg.overriding_with_invalid w)).log =
      s.log ++ [Event.stderr Msg.overriding_with_invalid w] := by
  have hr : ¬ (w ≤ 0 ∨ w > 32) := by omega
  refine ⟨?_, rfl, rfl, rfl, rfl⟩
  simp [galois_change_technique, hr, hv]

/-- Instance of C14: replacing the occupant of slot 8 by NULL aborts and slot 8 still
holds the object at address 200. -/
theorem galois_change_technique_rejects_invalid_witness :
    is_valid_gf populated_state NULL 8 = some 0 ∧
    galois_change_technique sample_env populated_state NULL 8 =
      Outcome.fatal (populated_state.emit (Event.stderr Msg.overriding_with_invalid 8)) ∧
    galois_get_field_ptr (populated_state.emit (Event.stderr Msg.overriding_with_invalid 8)) 8 =
      200 :=
  have h := galois_change_technique_rejects_invalid sample_env populated_state NULL 8
    (by decide) (by decide)
  ⟨by decide, h.1, by decide⟩

/-- C15: for a width `w <= 0` or `w > 32`, `galois_init_field`,
`galois_init_composite_field` and `galois_init` abort; the state each aborts in is
the input state with only the error message appended to the log, so nothing was
allocated, no backend function was called and the registry was not written. -/
theorem construction_rejects_width (env : Env) (s : State)
    (w mult_type region_type divide_type : Int) (prim_poly : Nat) (arg1 arg2 degree : Int)
    (base_gf : Ptr) (hw : w ≤ 0 ∨ w > 32) :
    galois_init_field env s w mult_type region_type divide_type prim_poly arg1 arg2 =
      Outcome.fatal (s.emit (Event.stderr Msg.cannot_init_default w)) ∧
    galois_init_composite_field env s w region_type divide_type degree base_gf =
      Outcome.fatal (s.emit (Event.stderr Msg.cannot_init_composite w)) ∧
    galois_init env s w = Outcome.fatal (s.emit (Event.stderr Msg.cannot_init_default w)) ∧
    (∀ m, (s.emit (Event.stderr m w)).reg = s.reg ∧ (s.emit (Event.stderr m w)).objs = s.objs ∧
      (s.emit (Event.stderr m w)).log = s.log ++ [Event.stderr m w]) := by
  refine ⟨?_, ?_, ?_, fun _ => ⟨rfl, rfl, rfl⟩⟩
  · simp only [galois_init_field, hw, if_true]
  · simp only [galois_init_composite_field, hw, if_true]
  · simp only [galois_init, hw, if_true]

/-- Instance of C15: the widths 0 and 33. -/
theorem construction_rejects_width_witness :
    galois_init sample_env empty_state 0 =
      Outcome.fatal (empty_state.emit (Event.stderr Msg.cannot_init_default 0)) ∧
    galois_init_composite_field sample_env populated_state 33 0 0 2 200 =
      Outcome.fatal (populated_state.emit (Event.stderr Msg.cannot_init_composite 33)) :=
  ⟨(construction_rejects_width sample_env empty_state 0 0 0 0 0 0 0 2 200 (by decide)).2.2.1,
    (construction_rejects_width sample_env populated_state 33 0 0 0 0 0 0 2 200
      (by decide)).2.1⟩

/-! ## Composite construction, the width-specific XOR, teardown -/

/-- Whenever the width is in range and both allocations of
`galois_init_composite_field` succeed, the test `!gf2p || gf2p->gf` of line 155 is
true and the call aborts with the allocation message. -/
theorem galois_init_composite_field_aborts_when_allocated (env : Env) (s : State)
    (w region_type divide_type degree : Int) (base_gf : Ptr)
    (hw : 1 ≤ w ∧ w ≤ 32) (h1 : env.malloc s.log ≠ NULL)
    (h2 : env.malloc (s.log ++ [Event.malloc (env.malloc s.log)]) ≠ NULL) :
    galois_init_composite_field env s w region_type divide_type degree base_gf =
      Outcome.fatal (((s.emit (Event.malloc (env.malloc s.log))).emit
        (Event.malloc (env.malloc (s.log ++ [Event.malloc (env.malloc s.log)])))).emit
        (Event.stderr Msg.cannot_allocate w)) := by
  have hr : ¬ (w ≤ 0 ∨ w > 32) := by omega
  simp [galois_init_composite_field, hr, h1, h2, State.emit]

/-- C16 fails on the code: for width 16 over the base field at address 200, in an
environment where every allocation succeeds, the scratch size is 64 and backend
construction succeeds, `galois_init_composite_field` does not return; it aborts on
line 157 after the two allocations, before `gf_scratch_size` and `gf_init_hard`
are called. -/
theorem galois_init_composite_field_sample_aborts :
    (galois_init_composite_field sample_env populated_state 16 0 0 2 200).isFatal = true ∧
    (galois_init_composite_field sample_env populated_state 16 0 0 2 200).val?.isNone = true ∧
    (galois_init_composite_field sample_env populated_state 16 0 0 2 200).state?.map
      (fun st => st.log) =
      some [Event.malloc 1000, Event.malloc 1001, Event.stderr Msg.cannot_allocate 16] := by
  decide

/-- With slot 8 populated, `galois_w8_region_xor` calls the region multiply read from
slot 8 with the content of slot 32 as its `gf_t *` argument. -/
theorem galois_w8_region_xor_passes_slot_32 (env : Env) (s : State) (src dest : Ptr)
    (nbytes : Int) (o : gf_t) (f : Ptr → Ptr → Ptr → Nat → Int → Int → Memory → Memory)
    (hs : s.reg.gfp_array 8 ≠ NULL) (ho : s.objs (s.reg.gfp_array 8) = some o)
    (hf : o.multiply_region = some f) :
    galois_w8_region_xor env s src dest nbytes =
      Outcome.ok ()
        { s.emit (Event.multiply_region (s.reg.gfp_array 8) (s.reg.gfp_array 32) src dest 1
            nbytes 1) with
          mem := f (s.reg.gfp_array 32) src dest 1 nbytes 1 s.mem } := by
  simp only [galois_w8_region_xor, ensure_default_populated env s 8 hs, Outcome.bind]
  rw [call_multiply_region_eq s _ _ src dest 1 nbytes 1 o f hs ho hf, toU32_one]

/-- C17 fails on the code for width 8: with slot 8 holding the instance at address
200 and slot 32 empty, `galois_w8_region_xor` calls slot 8's region multiply with
NULL, the content of slot 32, as the field argument.  The width-16 and width-32
variants pass their own slot: on the empty registry each constructs its instance
at address 1000 and passes 1000. -/
theorem galois_w8_region_xor_sample_call :
    (galois_w8_region_xor sample_env populated_state 300 400 16).state?.map (fun st => st.log) =
      some [Event.multiply_region 200 0 300 400 1 16 1] ∧
    (galois_w16_region_xor sample_env empty_state 300 400 16).state?.map (fun st => st.log) =
      some [Event.malloc 1000, Event.gf_init_easy 1000 16,
        Event.multiply_region 1000 1000 300 400 1 16 1] ∧
    (galois_w32_region_xor sample_env empty_state 300 400 16).state?.map (fun st => st.log) =
      some [Event.malloc 1000, Event.gf_init_easy 1000 32,
        Event.multiply_region 1000 1000 300 400 1 16 1] := by
  decide

/-- C18, as the code has it: on a populated slot `galois_uninit_field` calls `gf_free`
on the occupant with `recursive = 1` whatever `gfp_is_composite[w]` holds, frees
the occupant, empties the slot, and leaves `gfp_is_composite` as it was. -/
theorem galois_uninit_field_always_recursive (env : Env) (s : State) (w : Int)
    (hs : s.reg.gfp_array w ≠ NULL) :
    ∃ s1, galois_uninit_field env s w = Outcome.ok (env.gf_free (s.reg.gfp_array w) 1) s1 ∧
      s1.log = s.log ++ [Event.gf_free (s.reg.gfp_array w) 1, Event.free (s.reg.gfp_array w)] ∧
      s1.reg.gfp_array w = NULL ∧
      s1.reg.gfp_is_composite = s.reg.gfp_is_composite := by
  refine ⟨(c_free (s.emit (Event.gf_free (s.reg.gfp_array w) 1)) (s.reg.gfp_array w)).setSlot
    w NULL, by simp [galois_uninit_field, hs], ?_, ?_, ?_⟩
  · simp [State.setSlot, c_free, hs, State.emit]
  · simp [State.setSlot, setIdx]
  · simp [State.setSlot, c_free, hs, State.emit]

/-- Instance of C18 as amended: slot 8 flagged composite is torn down. -/
theorem galois_uninit_field_always_recursive_witness :
    flagged_state.reg.gfp_array 8 ≠ NULL ∧
    ∃ s1, galois_uninit_field sample_env flagged_state 8 =
        Outcome.ok (sample_env.gf_free (flagged_state.reg.gfp_array 8) 1) s1 ∧
      s1.reg.gfp_is_composite = flagged_state.reg.gfp_is_composite :=
  ⟨by decide,
    match galois_uninit_field_always_recursive sample_env flagged_state 8 (by decide) with
    | ⟨s1, h1, _, _, h4⟩ => ⟨s1, h1, h4⟩⟩

/-- C18 as stated fails: with slot 8 populated and `gfp_is_composite[8] = 0` the
backend is asked to free recursively (`gf_free(200, 1)`), and with
`gfp_is_composite[8] = 1` the flag is still 1 after the call. -/
theorem galois_uninit_field_sample_flags :
    populated_state.reg.gfp_is_composite 8 = 0 ∧
    (galois_uninit_field sample_env populated_state 8).state?.map (fun st => st.log) =
      some [Event.gf_free 200 1, Event.free 200] ∧
    flagged_state.reg.gfp_is_composite 8 = 1 ∧
    (galois_uninit_field sample_env flagged_state 8).state?.map
      (fun st => st.reg.gfp_is_composite 8) = some 1 := by
  decide

/-- C19 fails on the code: slot 8 is absent, the allocation succeeds and the backend's
default construction fails; `galois_init_default_field` reports `EINVAL` and leaves
the allocated address 1000 in slot 8, and a second call finds the slot populated
and reports success. -/
theorem galois_init_default_field_sample_failure :
    galois_get_field_ptr empty_state 8 = NULL ∧
    (galois_init_default_field failing_env empty_state 8).1 = EINVAL ∧
    galois_get_field_ptr (galois_init_default_field failing_env empty_state 8).2 8 = 1000 ∧
    ((galois_init_default_field failing_env empty_state 8).2.objs 1000).isNone = true ∧
    (galois_init_default_field failing_env
      (galois_init_default_field failing_env empty_state 8).2 8).1 = 0 := by
  decide

/-- On an absent slot: a failed allocation reports `ENOMEM` and the slot stays NULL;
a failed backend construction reports `EINVAL` and the slot keeps the allocated
address. -/
theorem galois_init_default_field_failure (env : Env) (s : State) (w : Int)
    (hs : s.reg.gfp_array w = NULL) :
    (env.malloc s.log = NULL →
      (galois_init_default_field env s w).1 = ENOMEM ∧
      (galois_init_default_field env s w).2.reg.gfp_array w = NULL) ∧
    (env.malloc s.log ≠ NULL → env.gf_init_easy (env.malloc s.log) w = none →
      (galois_init_default_field env s w).1 = EINVAL ∧
      (galois_init_default_field env s w).2.reg.gfp_array w = env.malloc s.log) := by
  constructor
  · intro hm
    simp [galois_init_default_field, hs, hm, State.setSlot, State.emit, setIdx]
  · intro hm hi
    simp [galois_init_default_field, hs, hm, hi, State.setSlot, State.emit, setIdx]

theorem galois_get_field_ptr_eq (s : State) (w : Int) :
    galois_get_field_ptr s w = s.reg.gfp_array w := by
  unfold galois_get_field_ptr
  split_ifs with h
  · rfl
  · exact (not_not.mp h).symm

theorem is_released_append_free (log : List Event) (p q : Ptr) :
    is_released (log ++ [Event.free p]) q = if q = p then true else is_released log q := by
  by_cases h : q = p
  · simp [is_released, List.foldl_append, h]
  · have h1 : ¬ (Event.free p = Event.free q) := fun e => h (by injection e with e; exact e.symm)
    simp [is_released, List.foldl_append, h, h1]

theorem free_once_some (s s1 : State) (p : Ptr) (h : free_once s p = some s1) :
    s1.reg = s.reg ∧ s1.g = s.g ∧
    s1.log = s.log ++ ([p].filter fun q => q ≠ NULL).map Event.free := by
  unfold free_once at h
  by_cases hp : p = NULL
  · simp only [hp, if_true, Option.some.injEq] at h
    subst h
    simp [hp]
  · by_cases hr : is_released s.log p = true
    · simp [hp, hr] at h
    · have hr2 : is_released s.log p = false := by simpa using hr
      simp only [hp, hr2, if_false, Bool.false_eq_true, Option.some.injEq] at h
      subst h
      simp [c_free, hp, State.emit]

/-- The loop of `galois_destroy` releases the slots it meets, read from the registry
it started with. -/
theorem destroy_slots_eq (l : List Nat) :
    ∀ s : State,
      destroy_slots s l = free_all s (l.map fun (i : Nat) => s.reg.gfp_array (Int.ofNat i)) := by
  induction l with
  | nil => intro s; rfl
  | cons i t ih =>
    intro s
    simp only [destroy_slots, List.map_cons, free_all, galois_get_field_ptr_eq]
    cases h : free_once s (s.reg.gfp_array (Int.ofNat i)) with
    | none => rfl
    | some s1 =>
      simp only
      rw [ih s1, (free_once_some s s1 _ h).1]

theorem free_all_append (a b : List Ptr) :
    ∀ s : State, free_all s (a ++ b) = (free_all s a).bind fun s1 => free_all s1 b := by
  induction a with
  | nil => intro s; rfl
  | cons p t ih =>
    intro s
    simp only [List.cons_append, free_all]
    cases free_once s p with
    | none => rfl
    | some s1 => exact ih s1

/-- A run of releases succeeds exactly when no non-NULL pointer comes up twice and
none is released beforehand; it then logs one `free` per non-NULL pointer and leaves
the registry as it was. -/
theorem free_all_spec (ps : List Ptr) :
    ∀ s : State,
      (((ps.filter fun q => q ≠ NULL).Nodup ∧
          ∀ p ∈ ps.filter fun q => q ≠ NULL, is_released s.log p = false) →
        ∃ s1, free_all s ps = some s1 ∧ s1.reg = s.reg ∧ s1.g = s.g ∧
          s1.log = s.log ++ (ps.filter fun q => q ≠ NULL).map Event.free) ∧
      (¬ ((ps.filter fun q => q ≠ NULL).Nodup ∧
          ∀ p ∈ ps.filter fun q => q ≠ NULL, is_released s.log p = false) →
        free_all s ps = none) := by
  induction ps with
  | nil =>
    intro s
    exact ⟨fun _ => ⟨s, rfl, rfl, rfl, by simp⟩, fun h => absurd ⟨List.nodup_nil, by simp⟩ h⟩
  | cons p t ih =>
    intro s
    by_cases hp : p = NULL
    · have hf : (List.filter (fun q => decide (q ≠ NULL)) (p :: t)) =
          List.filter (fun q => decide (q ≠ NULL)) t := by simp [hp]
      have hfo : free_once s p = some s := by simp [free_once, hp]
      rw [hf]
      simp only [free_all, hfo]
      exact ih s
    · have hf : (List.filter (fun q => decide (q ≠ NULL)) (p :: t)) =
          p :: List.filter (fun q => decide (q ≠ NULL)) t := by simp [hp]
      rw [hf]
      by_cases hr : is_released s.log p = true
      · have hfo : free_once s p = none := by simp [free_once, hp, hr]
        simp only [free_all, hfo]
        refine ⟨fun h => ?_, fun _ => trivial⟩
        have := h.2 p (List.mem_cons_self _ _)
        rw [hr] at this
        exact absurd this (by decide)
      · have hr2 : is_released s.log p = false := by simpa using hr
        have hfo : free_once s p = some (c_free s p) := by simp [free_once, hp, hr]
        have hlog : (c_free s p).log = s.log ++ [Event.free p] := by
          simp [c_free, hp, State.emit]
        have hreg : (c_free s p).reg = s.reg := by simp [c_free, hp, State.emit]
        have hg : (c_free s p).g = s.g := by simp [c_free, hp, State.emit]
        simp only [free_all, hfo]
        obtain ⟨ih1, ih2⟩ := ih (c_free s p)
        have hlive : ∀ q, is_released (c_free s p).log q = false ↔
            (q ≠ p ∧ is_released s.log q = false) := by
          intro q
          rw [hlog, is_released_append_free]
          by_cases hq : q = p <;> simp [hq]
        constructor
        · intro h
          have hnd := List.nodup_cons.mp h.1
          have hcond : (List.filter (fun q => decide (q ≠ NULL)) t).Nodup ∧
              ∀ q ∈ List.filter (fun q => decide (q ≠ NULL)) t,
                is_released (c_free s p).log q = false := by
            refine ⟨hnd.2, fun q hq => (hlive q).mpr ⟨?_, h.2 q (List.mem_cons_of_mem _ hq)⟩⟩
            intro hqp
            exact hnd.1 (hqp ▸ hq)
          obtain ⟨s1, e1, e2, e3, e4⟩ := ih1 hcond
          refine ⟨s1, e1, e2.trans hreg, e3.trans hg, ?_⟩
          rw [e4, hlog]
          simp
        · intro h
          apply ih2
          intro hcond
          apply h
          refine ⟨List.nodup_cons.mpr ⟨?_, hcond.1⟩, ?_⟩
          · intro hmem
            have hpp := ((hlive p).mp (hcond.2 p hmem)).1
            exact hpp rfl
          · intro q hq
            rcases List.mem_cons.mp hq with hqp | hqt
            · rw [hqp]; exact hr2
            · exact ((hlive q).mp (hcond.2 q hqt)).2

/-- For its own registry `galois_destroy` is the run of releases of `g->gf`, the 64
slots and `g`. -/
theorem galois_destroy_eq_free_all (s : State) (hg : s.g ≠ NULL) :
    galois_destroy s s.g =
      match free_all s ((s.reg.gf ::
          (List.range MAX_GF_INSTANCES).map fun (i : Nat) => s.reg.gfp_array (Int.ofNat i)) ++
          [s.g]) with
      | none => Outcome.undefined
      | some s3 => Outcome.ok () s3 := by
  have hcons : ∀ (st : State) (p : Ptr) (t : List Ptr),
      free_all st (p :: t) =
        match free_once st p with
        | none => none
        | some s1 => free_all s1 t := fun _ _ _ => rfl
  unfold galois_destroy
  rw [if_pos hg, if_pos rfl, List.cons_append, hcons]
  cases h1 : free_once s s.reg.gf with
  | none => rfl
  | some s1 =>
    simp only
    rw [destroy_slots_eq, (free_once_some s s1 _ h1).1, free_all_append]
    cases free_all s1 ((List.range MAX_GF_INSTANCES).map fun (i : Nat) =>
        s.reg.gfp_array (Int.ofNat i)) with
    | none => rfl
    | some s2 =>
      simp only [Option.bind, hcons]
      cases free_once s2 s.g <;> rfl

/-- C20, as the code has it: `galois_destroy(NULL)` leaves the state as it was.  For a
non-null registry it hands to `free`, in this order, `g->gf`, every slot of the
indices `0 .. 63` (`MAX_GF_INSTANCES` is 64; the widths 1..32 are among them), and
the registry itself, and writes no slot.  When the non-NULL pointers among these
are pairwise distinct and none is released already, each is freed exactly once and
the call returns; otherwise a pointer is freed a second time and the behaviour is
undefined. -/
theorem galois_destroy_releases (s : State) :
    galois_destroy s NULL = Outcome.ok () s ∧
    (s.g ≠ NULL → destroy_safe s →
      ∃ s1, galois_destroy s s.g = Outcome.ok () s1 ∧ s1.reg = s.reg ∧
        s1.log = s.log ++ (destroy_frees s).map Event.free ∧
        ((destroy_frees s).map Event.free).Nodup) ∧
    (s.g ≠ NULL → ¬ destroy_safe s → galois_destroy s s.g = Outcome.undefined) := by
  refine ⟨by simp [galois_destroy], ?_, ?_⟩
  · intro hg hsafe
    obtain ⟨s1, e1, e2, _, e4⟩ := (free_all_spec _ s).1 hsafe
    refine ⟨s1, ?_, e2, e4, ?_⟩
    · rw [galois_destroy_eq_free_all s hg, e1]
    · exact hsafe.1.map (fun a b hab => by injection hab)
  · intro hg hunsafe
    rw [galois_destroy_eq_free_all s hg, (free_all_spec _ s).2 hunsafe]

set_option maxRecDepth 8192 in
/-- Instance of C20 as amended: the registry at address 100 with slot 8 and index 40
populated is released pointer by pointer; the registry whose slot 8 holds the
registry's own address is not. -/
theorem galois_destroy_releases_witness :
    (stray_state.g ≠ NULL ∧ destroy_safe stray_state ∧
      ∃ s1, galois_destroy stray_state stray_state.g = Outcome.ok () s1 ∧
        s1.log = stray_state.log ++ (destroy_frees stray_state).map Event.free) ∧
    (aliased_state.g ≠ NULL ∧ ¬ destroy_safe aliased_state ∧
      galois_destroy aliased_state aliased_state.g = Outcome.undefined) :=
  ⟨⟨by decide, by unfold destroy_safe; decide,
    match (galois_destroy_releases stray_state).2.1 (by decide)
      (by unfold destroy_safe; decide) with
    | ⟨s1, h1, _, h3, _⟩ => ⟨s1, h1, h3⟩⟩,
    ⟨by decide, by unfold destroy_safe; decide,
      (galois_destroy_releases aliased_state).2.2 (by decide)
        (by unfold destroy_safe; decide)⟩⟩

set_option maxRecDepth 8192 in
/-- C20 as stated fails.  With index 40, outside 1..32, holding the address 240,
`galois_destroy` reads that slot and frees 240.  With slot 8 holding the registry's
own address 100, the address 100 is handed to `free` by the loop and again on line
79: the call does not return normally.  Nor does a second `galois_destroy` of a
registry already destroyed, whose pointers are all released. -/
theorem galois_destroy_sample_reads_index_40 :
    stray_state.reg.gfp_array 40 = 240 ∧
    (galois_destroy stray_state 100).state?.map (fun st => st.log) =
      some [Event.free 200, Event.free 240, Event.free 100] ∧
    galois_get_field_ptr aliased_state 8 = 100 ∧
    (destroy_slots aliased_state (List.range MAX_GF_INSTANCES)).map (fun st => st.log) =
      some [Event.free 100] ∧
    (galois_destroy aliased_state 100).state?.isNone = true ∧
    ((galois_destroy stray_state 100).bind fun _ st => galois_destroy st 100).state?.isNone =
      true := by
  decide

end Galois
